import Mathlib

/-!
Shallow embedding of the Bynar state-tracking core: the registration,
inventory, operation-ledger and ticket-query functions of
src/in_progress.rs over an explicit database state, together with the
reply-decoding layer of the RPC client in src/lib/lib.rs.  Definitions
follow the source functions; the theorems at the end settle the
specification claims.
-/

namespace Bynar

/-- Result discriminator of an RPC reply (protobuf enum ResultType). -/
inductive ResultType where
  | OK
  | ERR
deriving DecidableEq, Repr

/-- Reply envelope of add_disk_request and remove_disk_request: a result
discriminator plus an optional error message (protobuf optional field). -/
structure OpResult where
  result : ResultType
  error_msg : Option String
deriving DecidableEq, Repr

/-- Protobuf getter: an unset optional string field reads as the empty string. -/
def OpResult.get_error_msg (r : OpResult) : String := r.error_msg.getD ""

/-- Protobuf presence test for the optional error message field. -/
def OpResult.has_error_msg (r : OpResult) : Bool := r.error_msg.isSome

/-- Reply envelope of safe_to_remove_request: discriminator, optional boolean
payload and optional error message. -/
structure OpBoolResult where
  result : ResultType
  value : Option Bool
  error_msg : Option String
deriving DecidableEq, Repr

/-- Protobuf getter: an unset optional bool field reads as false. -/
def OpBoolResult.get_value (r : OpBoolResult) : Bool := r.value.getD false

/-- Protobuf getter: an unset optional string field reads as the empty string. -/
def OpBoolResult.get_error_msg (r : OpBoolResult) : String := r.error_msg.getD ""

/-- Protobuf presence test for the optional error message field. -/
def OpBoolResult.has_error_msg (r : OpBoolResult) : Bool := r.error_msg.isSome

/-- One ticket entry carried by a get_jira_tickets reply. -/
structure JiraInfo where
  ticket_id : String
  server_name : String
deriving DecidableEq, Repr

/-- Reply envelope of get_jira_tickets: discriminator, ticket list payload and
optional error message. -/
structure OpJiraTicketsResult where
  result : ResultType
  tickets : List JiraInfo
  error_msg : Option String
deriving DecidableEq, Repr

/-- Protobuf getter: an unset optional string field reads as the empty string. -/
def OpJiraTicketsResult.get_error_msg (r : OpJiraTicketsResult) : String := r.error_msg.getD ""

/-- Protobuf presence test for the optional error message field. -/
def OpJiraTicketsResult.has_error_msg (r : OpJiraTicketsResult) : Bool := r.error_msg.isSome

/-- Reply handling of add_disk_request (src/lib/lib.rs lines 80 to 95): OK is
success, ERR propagates the carried message, and an ERR reply without a message
yields the dedicated not-set error. -/
def add_disk_request_decode (op_result : OpResult) : Except String Unit :=
  match op_result.result with
  | .OK => .ok ()
  | .ERR =>
    if op_result.has_error_msg then .error op_result.get_error_msg
    else .error "Add disk failed but error_msg not set"

/-- Reply handling of remove_disk_request (src/lib/lib.rs lines 189 to 204),
with the same shape as add_disk_request. -/
def remove_disk_request_decode (op_result : OpResult) : Except String Unit :=
  match op_result.result with
  | .OK => .ok ()
  | .ERR =>
    if op_result.has_error_msg then .error op_result.get_error_msg
    else .error "Remove disk failed but error_msg not set"

/-- Reply handling of safe_to_remove_request (src/lib/lib.rs lines 159 to 162):
OK returns the boolean payload and ERR propagates the message getter directly,
with no presence check on the message field. -/
def safe_to_remove_request_decode (op_result : OpBoolResult) : Except String Bool :=
  match op_result.result with
  | .OK => .ok op_result.get_value
  | .ERR => .error op_result.get_error_msg

/-- Reply handling of get_jira_tickets (src/lib/lib.rs lines 258 to 279): OK is
success, ERR propagates the carried message, and an ERR reply without a message
yields the dedicated not-set error. -/
def get_jira_tickets_decode (op_result : OpJiraTicketsResult) : Except String Unit :=
  match op_result.result with
  | .OK => .ok ()
  | .ERR =>
    if op_result.has_error_msg then .error op_result.get_error_msg
    else .error "Get jira tickets failed but error_msg not set"

/-- Operation type enum of src/in_progress.rs lines 267 to 274. -/
inductive OperationType where
  | DiskAdd
  | DiskReplace
  | DiskRemove
  | WaitingForReplacement
  | Evaluation
deriving DecidableEq, Repr

/-- Display serialization of OperationType (src/in_progress.rs lines 276 to 287). -/
def OperationType.toStr : OperationType → String
  | .DiskAdd => "diskadd"
  | .DiskReplace => "diskreplace"
  | .DiskRemove => "diskremove"
  | .WaitingForReplacement => "waiting_for_replacement"
  | .Evaluation => "evaluation"

/-- Operation status enum of src/in_progress.rs lines 289 to 294. -/
inductive OperationStatus where
  | Pending
  | InProgress
  | Complete
deriving DecidableEq, Repr

/-- Display serialization of OperationStatus (src/in_progress.rs lines 296 to 305). -/
def OperationStatus.toStr : OperationStatus → String
  | .Pending => "pending"
  | .InProgress => "in_progress"
  | .Complete => "complete"

/-- Modelled from the spec: the disk lifecycle State enum is declared in the
repository module test_disk, which is not among the provided sources.  The spec
observes at minimum Unscanned, Good and WaitingForReplacement. -/
inductive State where
  | Unscanned
  | Good
  | WaitingForReplacement
deriving DecidableEq, Repr

/-- Modelled from the spec: Display of State as fixed snake-case text tokens,
the serialize half of the explicit serialize and parse pair the spec requires. -/
def State.toStr : State → String
  | .Unscanned => "unscanned"
  | .Good => "good"
  | .WaitingForReplacement => "waiting_for_replacement"

/-- Modelled from the spec: FromStr for State, the parse half of the pair; an
unrecognized token parses to none and every caller defaults that to Unscanned. -/
def State.fromStr (s : String) : Option State :=
  if s = "unscanned" then some .Unscanned
  else if s = "good" then some .Good
  else if s = "waiting_for_replacement" then some .WaitingForReplacement
  else none

/-- Modelled from the spec: the device identity fields of block_utils Device
used by this core (name, optional uuid rendered as text, optional serial). -/
structure Device where
  id : Option String
  name : String
  serial_number : Option String
deriving DecidableEq, Repr

/-- Modelled from the spec: the fields of test_disk BlockDevice that the state
store reads and writes; the module itself is not among the provided sources and
the field set is pinned by the uses in src/in_progress.rs. -/
structure BlockDevice where
  device : Device
  dev_path : String
  device_database_id : Option Nat
  mount_point : Option String
  state : State
  storage_detail_id : Nat
deriving DecidableEq, Repr

/-- Modelled from the spec: the host identity snapshot (helpers crate, Host)
consumed by update_storage_info: ip, region, storage type, hostname and the
optional array and pool name keys. -/
structure HostInfo where
  ip : String
  region : String
  storage_type : String
  hostname : String
  array_name : Option String
  pool_name : Option String
deriving DecidableEq, Repr

/-- Root id triple produced by host registration (src/in_progress.rs lines 214 to 229). -/
structure HostDetailsMapping where
  entry_id : Nat
  region_id : Nat
  storage_detail_id : Nat
deriving DecidableEq, Repr

/-- Row of the process_manager table. -/
structure ProcessRow where
  entry_id : Nat
  pid : Nat
  ip : String
  status : String
deriving DecidableEq, Repr

/-- Row of the regions table. -/
structure RegionRow where
  region_id : Nat
  region_name : String
deriving DecidableEq, Repr

/-- Row of the storage_types reference table. -/
structure StorageTypeRow where
  storage_id : Nat
  storage_type : String
deriving DecidableEq, Repr

/-- Row of the storage_details table. -/
structure StorageDetailRow where
  detail_id : Nat
  storage_id : Nat
  region_id : Nat
  hostname : String
  name_key1 : Option String
  name_key2 : Option String
deriving DecidableEq, Repr

/-- Row of the hardware_types reference table. -/
structure HardwareTypeRow where
  hardware_id : Int
  hardware_type : String
deriving DecidableEq, Repr

/-- Row of the hardware table. -/
structure HardwareRow where
  device_id : Nat
  detail_id : Nat
  device_path : String
  device_name : String
  state : String
  hardware_type : Int
  mount_path : Option String
  device_uuid : Option String
  serial_number : Option String
  smart_passed : Option Bool
deriving DecidableEq, Repr, Inhabited

/-- Row of the operations table. -/
structure OperationRow where
  operation_id : Nat
  entry_id : Nat
  device_id : Nat
  behalf_of : Option String
  reason : Option String
  start_time : Nat
  snapshot_time : Nat
  done_time : Option Nat
deriving DecidableEq, Repr

/-- Row of the operation_types reference table. -/
structure OperationTypeRow where
  type_id : Nat
  op_name : String
deriving DecidableEq, Repr

/-- Row of the operation_details table. -/
structure OperationDetailRow where
  operation_detail_id : Nat
  operation_id : Nat
  type_id : Nat
  status : String
  tracking_id : Option String
  start_time : Nat
  snapshot_time : Nat
  done_time : Option Nat
deriving DecidableEq, Repr

/-- The database state: the tables of the logical schema in the spec, plus a
generator for the serial ids that the RETURNING clauses hand back. -/
structure DB where
  process_manager : List ProcessRow
  regions : List RegionRow
  storage_types : List StorageTypeRow
  storage_details : List StorageDetailRow
  hardware_types : List HardwareTypeRow
  hardware : List HardwareRow
  operations : List OperationRow
  operation_types : List OperationTypeRow
  operation_details : List OperationDetailRow
  next_id : Nat
deriving DecidableEq, Repr

/-- In-memory OperationDetail record of src/in_progress.rs lines 307 to 317. -/
structure OperationDetail where
  op_detail_id : Option Nat
  operation_id : Nat
  op_type : OperationType
  status : OperationStatus
  tracking_id : Option String
  start_time : Nat
  snapshot_time : Nat
  done_time : Option Nat
deriving DecidableEq, Repr

/-- Embedding of register_to_process_manager (src/in_progress.rs lines 415 to
450): look up the process_manager row keyed by pid and ip; on a hit, reset its
status to idle and return the stored entry id, otherwise insert a fresh idle
row and return the id the insert hands back. -/
def register_to_process_manager (db : DB) (pid : Nat) (ip : String) : DB × Nat :=
  match db.process_manager.filter (fun r => decide (r.pid = pid ∧ r.ip = ip)) with
  | row :: _ =>
      ({ db with
          process_manager := db.process_manager.map (fun r =>
            if r.pid = pid ∧ r.ip = ip then { r with status := "idle" } else r) },
        row.entry_id)
  | [] =>
      ({ db with
          process_manager := db.process_manager ++
            [{ entry_id := db.next_id, pid := pid, ip := ip, status := "idle" }],
          next_id := db.next_id + 1 },
        db.next_id)

/-- Embedding of update_region (src/in_progress.rs lines 460 to 488): look up
the region by name, inserting it when absent, and return its id. -/
def update_region (db : DB) (region : String) : DB × Nat :=
  match db.regions.filter (fun r => decide (r.region_name = region)) with
  | row :: _ => (db, row.region_id)
  | [] =>
      ({ db with
          regions := db.regions ++ [{ region_id := db.next_id, region_name := region }],
          next_id := db.next_id + 1 },
        db.next_id)

/-- Embedding of update_storage_details (src/in_progress.rs lines 490 to 554):
resolve the storage type (which must pre-exist, otherwise the id stays 0), then
look up or insert the storage_details row keyed by storage id, region id and
hostname, including the optional name keys only when present. -/
def update_storage_details (db : DB) (s_info : HostInfo) (region_id : Nat) : DB × Nat :=
  match db.storage_types.filter (fun r => decide (r.storage_type = s_info.storage_type)) with
  | [] => (db, 0)
  | strow :: _ =>
      match db.storage_details.filter (fun r => decide (r.storage_id = strow.storage_id ∧
          r.region_id = region_id ∧ r.hostname = s_info.hostname)) with
      | drow :: _ => (db, drow.detail_id)
      | [] =>
          ({ db with
              storage_details := db.storage_details ++
                [{ detail_id := db.next_id, storage_id := strow.storage_id,
                   region_id := region_id, hostname := s_info.hostname,
                   name_key1 := s_info.array_name, name_key2 := s_info.pool_name }],
              next_id := db.next_id + 1 },
            db.next_id)

/-- Embedding of update_storage_info (src/in_progress.rs lines 384 to 412): run
the three registration steps in one transaction; when any of the three resolved
ids is zero the function returns early with an error and the transaction, never
marked for commit, rolls back, leaving the database unchanged; otherwise the
transaction commits and the mapping is returned. -/
def update_storage_info (db : DB) (s_info : HostInfo) (pid : Nat) :
    DB × Except String HostDetailsMapping :=
  let r1 := register_to_process_manager db pid s_info.ip
  let r2 := update_region r1.1 s_info.region
  let r3 := update_storage_details r2.1 s_info r2.2
  if r1.2 = 0 ∨ r2.2 = 0 ∨ r3.2 = 0 then
    (db, .error "Failed to update storage information in the database")
  else
    (r3.1, .ok { entry_id := r1.2, region_id := r2.2, storage_detail_id := r3.2 })

/-- The natural-key lookup of add_disk_detail: hardware rows whose device path,
storage detail id and device name match the observed disk. -/
def hardwareNaturalKeyLookup (db : DB) (disk_info : BlockDevice) : List HardwareRow :=
  db.hardware.filter (fun h => decide (h.device_path = disk_info.dev_path ∧
    h.detail_id = disk_info.storage_detail_id ∧ h.device_name = disk_info.device.name))

/-- Embedding of add_disk_detail (src/in_progress.rs lines 557 to 662): when the
natural key is absent, resolve the disk hardware type id (defaulting to 2 when
the reference row is missing), insert the row with the optional columns that are
present, and record the returned device id on the device; when present, adopt
the stored id if the device carries none, succeed when the carried id matches,
and fail with the mismatch error when it disagrees. -/
def add_disk_detail (db : DB) (disk_info : BlockDevice) :
    DB × BlockDevice × Except String Unit :=
  match hardwareNaturalKeyLookup db disk_info with
  | [] =>
      let hardware_type : Int :=
        match db.hardware_types.filter (fun h => decide (h.hardware_type = "disk")) with
        | [] => 2
        | r :: _ => r.hardware_id
      let newRow : HardwareRow :=
        { device_id := db.next_id, detail_id := disk_info.storage_detail_id,
          device_path := disk_info.dev_path, device_name := disk_info.device.name,
          state := disk_info.state.toStr, hardware_type := hardware_type,
          mount_path := disk_info.mount_point, device_uuid := disk_info.device.id,
          serial_number := disk_info.device.serial_number, smart_passed := none }
      ({ db with hardware := db.hardware ++ [newRow], next_id := db.next_id + 1 },
        { disk_info with device_database_id := some db.next_id }, .ok ())
  | row :: _ =>
      match disk_info.device_database_id with
      | none => (db, { disk_info with device_database_id := some row.device_id }, .ok ())
      | some i =>
          if i = row.device_id then (db, disk_info, .ok ())
          else
            (db, disk_info, .error ("Information about " ++ disk_info.device.name ++
              " for storage id " ++ toString disk_info.storage_detail_id ++
              " didn\x27t match"))

/-- Embedding of add_or_update_operation_detail (src/in_progress.rs lines 743 to
833).  With no detail id yet: resolve the type id for the operation type over
the operation_types reference table, guarded first by a length-not-one check and
then by an emptiness check, in the order of the source; then insert the row with
the optional columns that are present and record the returned detail id.  With
an existing id: update snapshot time and status always, tracking id and done
time when present, succeeding regardless of how many rows matched. -/
def add_or_update_operation_detail (db : DB) (operation_detail : OperationDetail) :
    DB × OperationDetail × Except String Unit :=
  match operation_detail.op_detail_id with
  | none =>
      let found := db.operation_types.filter
        (fun t => decide (t.op_name = operation_detail.op_type.toStr))
      if found.length ≠ 1 then
        (db, operation_detail,
          .error ("More than one record found in database for operation " ++
            operation_detail.op_type.toStr))
      else if found.isEmpty then
        (db, operation_detail,
          .error ("No record in database for operation " ++ operation_detail.op_type.toStr))
      else
        let type_id := (found.headD { type_id := 0, op_name := "" }).type_id
        let newRow : OperationDetailRow :=
          { operation_detail_id := db.next_id,
            operation_id := operation_detail.operation_id,
            type_id := type_id,
            status := operation_detail.status.toStr,
            tracking_id := operation_detail.tracking_id,
            start_time := operation_detail.start_time,
            snapshot_time := operation_detail.snapshot_time,
            done_time := operation_detail.done_time }
        ({ db with
            operation_details := db.operation_details ++ [newRow],
            next_id := db.next_id + 1 },
          { operation_detail with op_detail_id := some db.next_id }, .ok ())
  | some id =>
      ({ db with
          operation_details := db.operation_details.map (fun r =>
            if r.operation_detail_id = id then
              { r with
                snapshot_time := operation_detail.snapshot_time,
                status := operation_detail.status.toStr,
                tracking_id := match operation_detail.tracking_id with
                  | some t => some t
                  | none => r.tracking_id,
                done_time := match operation_detail.done_time with
                  | some t => some t
                  | none => r.done_time }
            else r) },
        operation_detail, .ok ())

/-- Embedding of save_state (src/in_progress.rs lines 835 to 878): requires a
known device database id; inside a transaction, update the state of the
hardware rows keyed by that id, roll back with an error unless exactly one row
was affected, and commit otherwise. -/
def save_state (db : DB) (device_detail : BlockDevice) (state : State) :
    DB × Except String Unit :=
  match device_detail.device_database_id with
  | some dev_id =>
      let affected := (db.hardware.filter (fun h => decide (h.device_id = dev_id))).length
      if affected ≠ 1 then
        (db, .error "Attempt to update more than one device in database. Rolling back.")
      else
        ({ db with hardware := db.hardware.map (fun h =>
            if h.device_id = dev_id then { h with state := state.toStr } else h) }, .ok ())
  | none =>
      (db, .error ("Device " ++ device_detail.device.name ++
        " for storage detail with id " ++ toString device_detail.storage_detail_id ++
        " is not in database"))

/-- Embedding of save_smart_result (src/in_progress.rs lines 880 to 923), the
same transaction and row-count guard as save_state, writing smart_passed. -/
def save_smart_result (db : DB) (device_detail : BlockDevice) (smart_passed : Bool) :
    DB × Except String Unit :=
  match device_detail.device_database_id with
  | some dev_id =>
      let affected := (db.hardware.filter (fun h => decide (h.device_id = dev_id))).length
      if affected ≠ 1 then
        (db, .error "Attempt to update more than one device in database. Rolling back.")
      else
        ({ db with hardware := db.hardware.map (fun h =>
            if h.device_id = dev_id then { h with smart_passed := some smart_passed }
            else h) }, .ok ())
  | none =>
      (db, .error ("Device " ++ device_detail.device.name ++
        " for storage detail with id " ++ toString device_detail.storage_detail_id ++
        " is not in database"))

/-- Embedding of get_state (src/in_progress.rs lines 952 to 986): error when the
device database id is unset; otherwise query the hardware rows by that id,
answer Unscanned unless exactly one row matched, and parse the stored text with
the Unscanned fallback. -/
def get_state (db : DB) (device_detail : BlockDevice) : Except String State :=
  match device_detail.device_database_id with
  | some dev_id =>
      let rows := db.hardware.filter (fun h => decide (h.device_id = dev_id))
      if rows.length ≠ 1 ∨ rows.isEmpty then
        .ok State.Unscanned
      else
        .ok ((State.fromStr (rows.headD default).state).getD State.Unscanned)
  | none =>
      .error ("Device " ++ device_detail.device.name ++ " for storage detail " ++
        toString device_detail.storage_detail_id ++ " is not in DB")

/-- Column names of the operation_details table, per the insert statement in
add_or_update_operation_detail and the logical schema in the spec. -/
def operationDetailsColumns : List String :=
  ["operation_detail_id", "operation_id", "type_id", "status", "tracking_id",
    "start_time", "snapshot_time", "done_time"]

/-- Value of a named column of an operation_details row, rendered as nullable
text the way a SQL comparison against a string literal sees it; none when the
table has no column of that name. -/
def OperationDetailRow.column (r : OperationDetailRow) (c : String) :
    Option (Option String) :=
  if c = "operation_detail_id" then some (some (toString r.operation_detail_id))
  else if c = "operation_id" then some (some (toString r.operation_id))
  else if c = "type_id" then some (some (toString r.type_id))
  else if c = "status" then some (some r.status)
  else if c = "tracking_id" then some r.tracking_id
  else if c = "start_time" then some (some (toString r.start_time))
  else if c = "snapshot_time" then some (some (toString r.snapshot_time))
  else if c = "done_time" then some (r.done_time.map toString)
  else none

/-- Execution of UPDATE operation_details SET status = newStatus WHERE
whereCol = whereVal: postgres rejects the statement outright when whereCol is
not a column of the table; otherwise the rows whose column equals the literal
are updated and their count is reported. -/
def updateOperationDetailsStatusWhere (db : DB) (newStatus whereCol whereVal : String) :
    DB × Except String Nat :=
  if whereCol ∈ operationDetailsColumns then
    ({ db with
        operation_details := db.operation_details.map (fun r =>
          if r.column whereCol = some (some whereVal) then { r with status := newStatus }
          else r) },
      .ok (db.operation_details.filter
        (fun r => decide (r.column whereCol = some (some whereVal)))).length)
  else
    (db, .error ("column \x22" ++ whereCol ++
      "\x22 of relation \x22operation_details\x22 does not exist"))

/-- Embedding of resolve_ticket_in_db (src/in_progress.rs lines 1085 to 1101):
issue UPDATE operation_details SET status equals complete WHERE the column
named ticket_id equals the given id, propagate a statement failure, and
otherwise succeed regardless of the affected-row count. -/
def resolve_ticket_in_db (db : DB) (ticket_id : String) : DB × Except String Unit :=
  match updateOperationDetailsStatusWhere db OperationStatus.Complete.toStr
      "ticket_id" ticket_id with
  | (db2, .ok _) => (db2, .ok ())
  | (db2, .error e) => (db2, .error e)

/-- Repair ticket projection of src/in_progress.rs lines 188 to 193. -/
structure DiskRepairTicket where
  ticket_id : String
  device_name : String
  device_path : String
deriving DecidableEq, Repr

/-- Fleet-wide pending ticket projection of src/in_progress.rs lines 195 to 201. -/
structure DiskPendingTicket where
  ticket_id : String
  device_name : String
  device_path : String
  device_id : Nat
deriving DecidableEq, Repr

/-- One row of the three-way join used by the ticket queries. -/
structure JoinedTicketRow where
  od : OperationDetailRow
  op : OperationRow
  hw : HardwareRow
deriving DecidableEq, Repr

/-- The relational join operation_details JOIN operations USING operation_id
JOIN hardware USING device_id. -/
def ticketJoin (db : DB) : List JoinedTicketRow :=
  db.operation_details.flatMap (fun od =>
    (db.operations.filter (fun op => decide (op.operation_id = od.operation_id))).flatMap
      (fun op =>
        (db.hardware.filter (fun hw => decide (hw.device_id = op.device_id))).map
          (fun hw => { od := od, op := op, hw := hw })))

/-- WHERE clause shared by the two ticket queries, given the resolved
waiting_for_replacement type id and, for the per-host variant, the detail id:
status is in_progress or pending, the type id matches, the hardware state is
waiting_for_replacement or good, the detail id matches when given, and the
tracking id is not null. -/
def ticketWhere (t : Nat) (detail : Option Nat) (r : JoinedTicketRow) : Bool :=
  (decide (r.od.status = OperationStatus.InProgress.toStr) ||
    decide (r.od.status = OperationStatus.Pending.toStr)) &&
  decide (r.od.type_id = t) &&
  (decide (r.hw.state = State.WaitingForReplacement.toStr) ||
    decide (r.hw.state = State.Good.toStr)) &&
  (match detail with
    | some d => decide (r.hw.detail_id = d)
    | none => true) &&
  r.od.tracking_id.isSome

/-- Scalar subquery SELECT type_id FROM operation_types WHERE op_name equals the
given name: none when no row matches, so that the enclosing comparison with NULL
filters every row out, and a statement error when several rows match. -/
def scalarTypeIdSubquery (db : DB) (name : String) : Except String (Option Nat) :=
  match db.operation_types.filter (fun t => decide (t.op_name = name)) with
  | [] => .ok none
  | [t] => .ok (some t.type_id)
  | _ :: _ :: _ => .error "more than one row returned by a subquery used as an expression"

/-- Comparison used by ORDER BY operations.start_time. -/
def ticketRowLe (a b : JoinedTicketRow) : Bool :=
  decide (a.op.start_time ≤ b.op.start_time)

/-- The sorted, filtered join shared by get_outstanding_repair_tickets, which
passes its detail id, and get_all_pending_tickets, which passes none. -/
def ticketQueryRows (db : DB) (detail : Option Nat) :
    Except String (List JoinedTicketRow) := do
  let t ← scalarTypeIdSubquery db OperationType.WaitingForReplacement.toStr
  let rows := (ticketJoin db).filter (fun r =>
    match t with
    | none => false
    | some t0 => ticketWhere t0 detail r)
  return rows.mergeSort ticketRowLe

/-- Projection of a joined row to the per-host ticket record. -/
def repairTicketOfRow (r : JoinedTicketRow) : DiskRepairTicket :=
  { ticket_id := r.od.tracking_id.getD "", device_name := r.hw.device_name,
    device_path := r.hw.device_path }

/-- Projection of a joined row to the fleet-wide ticket record. -/
def pendingTicketOfRow (r : JoinedTicketRow) : DiskPendingTicket :=
  { ticket_id := r.od.tracking_id.getD "", device_name := r.hw.device_name,
    device_path := r.hw.device_path, device_id := r.hw.device_id }

/-- Embedding of get_outstanding_repair_tickets (src/in_progress.rs lines 1035
to 1081): the joined, filtered query restricted to the given storage detail id,
ordered by operation start time, projected to tracking id, device name and
device path. -/
def get_outstanding_repair_tickets (db : DB) (storage_detail_id : Nat) :
    Except String (List DiskRepairTicket) := do
  let rows ← ticketQueryRows db (some storage_detail_id)
  return rows.map repairTicketOfRow

/-- Embedding of get_all_pending_tickets (src/in_progress.rs lines 1213 to
1253): the same query without the per-host restriction, additionally projecting
the device id. -/
def get_all_pending_tickets (db : DB) : Except String (List DiskPendingTicket) := do
  let rows ← ticketQueryRows db none
  return rows.map pendingTicketOfRow

/-- Decidable equality of call results, used to evaluate the embedded functions
at concrete inputs. -/
instance {ε α : Type} [DecidableEq ε] [DecidableEq α] : DecidableEq (Except ε α) := fun a b =>
  match a, b with
  | .ok x, .ok y =>
    if h : x = y then .isTrue (congrArg Except.ok h) else .isFalse (by simp [h])
  | .error x, .error y =>
    if h : x = y then .isTrue (congrArg Except.error h) else .isFalse (by simp [h])
  | .ok _, .error _ => .isFalse (by simp)
  | .error _, .ok _ => .isFalse (by simp)

/-- Specification-side description of an open repair ticket row, in the words
of the claim: a joined operation-detail, operation and hardware row triple with
status Pending or InProgress, the resolved WaitingForReplacement type id,
hardware state WaitingForReplacement or Good, a non-null tracking id and, when
a storage detail id is given, that detail id on the hardware row. -/
def IsOpenTicketRow (db : DB) (t : Nat) (detail : Option Nat) (r : JoinedTicketRow) : Prop :=
  r.od ∈ db.operation_details ∧ r.op ∈ db.operations ∧ r.hw ∈ db.hardware ∧
  r.op.operation_id = r.od.operation_id ∧ r.hw.device_id = r.op.device_id ∧
  (r.od.status = OperationStatus.Pending.toStr ∨
    r.od.status = OperationStatus.InProgress.toStr) ∧
  r.od.type_id = t ∧
  (r.hw.state = State.WaitingForReplacement.toStr ∨ r.hw.state = State.Good.toStr) ∧
  r.od.tracking_id ≠ none ∧
  (∀ d, detail = some d → r.hw.detail_id = d)

/-- The rows of a ticket query answer are exactly the open ticket rows and are
ordered by operation start time ascending. -/
def TicketRowsCharacterized (db : DB) (t : Nat) (detail : Option Nat)
    (rows : List JoinedTicketRow) : Prop :=
  (∀ r, r ∈ rows ↔ IsOpenTicketRow db t detail r) ∧
  List.Sorted (fun a b : JoinedTicketRow => a.op.start_time ≤ b.op.start_time) rows

/-- The per-host ticket query answers with exactly the open ticket rows for the
given detail id, oldest first, projected to tracking id, name and path. -/
def OutstandingQueryCorrect (db : DB) (t : Nat) (detail_id : Nat) : Prop :=
  ∃ rows, ticketQueryRows db (some detail_id) = .ok rows ∧
    get_outstanding_repair_tickets db detail_id = .ok (rows.map repairTicketOfRow) ∧
    TicketRowsCharacterized db t (some detail_id) rows

/-- The fleet-wide ticket query answers with exactly the open ticket rows,
oldest first, projected with the device id included. -/
def AllPendingQueryCorrect (db : DB) (t : Nat) : Prop :=
  ∃ rows, ticketQueryRows db none = .ok rows ∧
    get_all_pending_tickets db = .ok (rows.map pendingTicketOfRow) ∧
    TicketRowsCharacterized db t none rows

/-- Sample host identity used to evaluate the registration path. -/
def wHost : HostInfo :=
  { ip := "10.0.0.1", region := "region-a", storage_type := "ceph",
    hostname := "host-1", array_name := none, pool_name := none }

/-- Sample database with every table empty. -/
def wEmptyDB : DB :=
  { process_manager := [], regions := [], storage_types := [], storage_details := [],
    hardware_types := [], hardware := [], operations := [], operation_types := [],
    operation_details := [], next_id := 1 }

/-- Sample hardware row for device sdb on storage detail 5. -/
def wHardwareRow : HardwareRow :=
  { device_id := 3, detail_id := 5, device_path := "/dev/sdb", device_name := "sdb",
    state := "waiting_for_replacement", hardware_type := 2, mount_path := none,
    device_uuid := none, serial_number := none, smart_passed := none }

/-- Sample database holding exactly the sdb hardware row. -/
def wDeviceDB : DB := { wEmptyDB with hardware := [wHardwareRow], next_id := 10 }

/-- Sample block device matching the sdb hardware row, carrying its stored id. -/
def wDevice : BlockDevice :=
  { device := { id := none, name := "sdb", serial_number := none },
    dev_path := "/dev/sdb", device_database_id := some 3, mount_point := none,
    state := State.Good, storage_detail_id := 5 }

/-- Sample block device not yet known to the database. -/
def wNewDevice : BlockDevice := { wDevice with device_database_id := none }

/-- Sample operation_types reference row for waiting_for_replacement. -/
def wTypeRow : OperationTypeRow := { type_id := 7, op_name := "waiting_for_replacement" }

/-- Sample operation detail row carrying an open tracking id. -/
def wOpDetailRow : OperationDetailRow :=
  { operation_detail_id := 21, operation_id := 11, type_id := 7, status := "in_progress",
    tracking_id := some "ABC-1234", start_time := 100, snapshot_time := 100,
    done_time := none }

/-- Sample operation row owning the sample detail and pointing at device 3. -/
def wOperationRow : OperationRow :=
  { operation_id := 11, entry_id := 1, device_id := 3, behalf_of := none, reason := none,
    start_time := 100, snapshot_time := 100, done_time := none }

/-- Sample database on which the ticket queries surface exactly one ticket. -/
def wTicketDB : DB :=
  { wEmptyDB with
      hardware := [wHardwareRow],
      operations := [wOperationRow],
      operation_types := [wTypeRow],
      operation_details := [wOpDetailRow],
      next_id := 30 }

/-- The hardware row produced by inserting the sample new device into the
empty database. -/
def wInsertedRow : HardwareRow :=
  { device_id := 1, detail_id := 5, device_path := "/dev/sdb", device_name := "sdb",
    state := "good", hardware_type := 2, mount_path := none, device_uuid := none,
    serial_number := none, smart_passed := none }

/-- The database state after inserting the sample new device. -/
def wInsertedDB : DB := { wEmptyDB with hardware := [wInsertedRow], next_id := 2 }

/-- The sample device carrying the id the insert handed back. -/
def wInsertedDisk : BlockDevice := { wNewDevice with device_database_id := some 1 }

/-- Sample in-memory operation detail not yet inserted. -/
def wOpDetail : OperationDetail :=
  { op_detail_id := none, operation_id := 11, op_type := OperationType.WaitingForReplacement,
    status := OperationStatus.InProgress, tracking_id := some "ABC-1234",
    start_time := 100, snapshot_time := 100, done_time := none }

/-- C3 counterexample: decoding a safe_to_remove reply whose result is ERR and
which carries no error message yields the empty error message, not a distinct
error_msg-not-set condition, refuting the claim for safe_to_remove_request. -/
theorem safe_to_remove_err_without_msg_counterexample :
    safe_to_remove_request_decode { result := .ERR, value := none, error_msg := none } =
      .error "" := rfl

/-- C3 (amended): decoding an ERR reply that carries no error message yields the
dedicated error_msg-not-set error for add_disk_request, remove_disk_request and
get_jira_tickets, while safe_to_remove_request instead propagates the protobuf
default, the empty error message, without any distinct condition and without
panicking. -/
theorem rpc_err_without_msg_spec :
    (∀ r : OpResult, r.result = .ERR → r.error_msg = none →
      add_disk_request_decode r = .error "Add disk failed but error_msg not set" ∧
      remove_disk_request_decode r = .error "Remove disk failed but error_msg not set") ∧
    (∀ r : OpJiraTicketsResult, r.result = .ERR → r.error_msg = none →
      get_jira_tickets_decode r = .error "Get jira tickets failed but error_msg not set") ∧
    (∀ r : OpBoolResult, r.result = .ERR → r.error_msg = none →
      safe_to_remove_request_decode r = .error "") := by
  refine ⟨?_, ?_, ?_⟩ <;> intro r h1 h2 <;>
    simp [add_disk_request_decode, remove_disk_request_decode, get_jira_tickets_decode,
      safe_to_remove_request_decode, OpResult.has_error_msg, OpResult.get_error_msg,
      OpJiraTicketsResult.has_error_msg, OpJiraTicketsResult.get_error_msg,
      OpBoolResult.get_error_msg, h1, h2]

/-- C3 witness: the amended statement applied to a concrete message-free ERR
reply. -/
theorem rpc_err_without_msg_spec_witness :
    add_disk_request_decode { result := .ERR, error_msg := none } =
        .error "Add disk failed but error_msg not set" ∧
      remove_disk_request_decode { result := .ERR, error_msg := none } =
        .error "Remove disk failed but error_msg not set" :=
  rpc_err_without_msg_spec.1 { result := .ERR, error_msg := none } rfl rfl

/-- C1: resolve_ticket_in_db never updates an operation_details row and never
succeeds: its UPDATE statement names the column ticket_id, which the
operation_details table does not have (the stored column is tracking_id), so
the statement is rejected for every id and every database state. -/
theorem resolve_ticket_always_fails (db : DB) (ticket_id : String) :
    resolve_ticket_in_db db ticket_id =
      (db, .error
        "column \x22ticket_id\x22 of relation \x22operation_details\x22 does not exist") := by
  unfold resolve_ticket_in_db updateOperationDetailsStatusWhere
  rw [if_neg (by decide)]
  rfl

/-- C8: get_state errors exactly when the device database id is unset; with a
known id it answers Unscanned whenever the hardware query does not match
exactly one row, and parses the stored text of a uniquely matching row with
Unscanned as the fallback for any unrecognized value. -/
theorem get_state_spec (db : DB) (dev : BlockDevice) :
    (dev.device_database_id = none →
      get_state db dev = .error ("Device " ++ dev.device.name ++ " for storage detail " ++
        toString dev.storage_detail_id ++ " is not in DB")) ∧
    (∀ i, dev.device_database_id = some i →
      ((db.hardware.filter (fun h => decide (h.device_id = i))).length ≠ 1 →
        get_state db dev = .ok State.Unscanned) ∧
      (∀ row, db.hardware.filter (fun h => decide (h.device_id = i)) = [row] →
        get_state db dev = .ok ((State.fromStr row.state).getD State.Unscanned))) := by
  refine ⟨fun h => by simp [get_state, h], fun i hi => ⟨fun hlen => ?_, fun row hrow => ?_⟩⟩
  · simp [get_state, hi, hlen]
  · simp [get_state, hi, hrow]

/-- C8 witness: get_state applied to the sample device whose unique hardware
row stores the waiting_for_replacement state text. -/
theorem get_state_spec_witness :
    get_state wDeviceDB wDevice =
      .ok ((State.fromStr wHardwareRow.state).getD State.Unscanned) :=
  ((get_state_spec wDeviceDB wDevice).2 3 rfl).2 wHardwareRow (by decide)

/-- C4: with a known device database id, save_state and save_smart_result
commit the updated hardware table exactly when one row matches that id, and
otherwise fail with the rollback error and leave the database unchanged. -/
theorem save_state_row_count_guard (db : DB) (dev : BlockDevice) (st : State) (b : Bool)
    (i : Nat) (hid : dev.device_database_id = some i) :
    ((db.hardware.filter (fun h => decide (h.device_id = i))).length = 1 →
      save_state db dev st =
        ({ db with
            hardware := db.hardware.map (fun h =>
              if h.device_id = i then { h with state := st.toStr } else h) }, .ok ()) ∧
      save_smart_result db dev b =
        ({ db with
            hardware := db.hardware.map (fun h =>
              if h.device_id = i then { h with smart_passed := some b } else h) },
          .ok ())) ∧
    ((db.hardware.filter (fun h => decide (h.device_id = i))).length ≠ 1 →
      save_state db dev st =
        (db, .error "Attempt to update more than one device in database. Rolling back.") ∧
      save_smart_result db dev b =
        (db, .error "Attempt to update more than one device in database. Rolling back.")) := by
  constructor
  · intro hone
    constructor
    · simp [save_state, hid, hone]
    · simp [save_smart_result, hid, hone]
  · intro hne
    constructor
    · simp [save_state, hid, hne]
    · simp [save_smart_result, hid, hne]

/-- C4 witness: the guard applied to the sample database, committing on the
uniquely matching device id and rolling back on an id that matches no row. -/
theorem save_state_row_count_guard_witness :
    (save_state wDeviceDB wDevice State.Good).2 = .ok () ∧
      (save_state wDeviceDB { wDevice with device_database_id := some 4 } State.Good).2 =
        .error "Attempt to update more than one device in database. Rolling back." :=
  ⟨congrArg Prod.snd
      (((save_state_row_count_guard wDeviceDB wDevice State.Good true 3 rfl).1
        (by decide)).1),
    congrArg Prod.snd
      (((save_state_row_count_guard wDeviceDB { wDevice with device_database_id := some 4 }
        State.Good true 4 rfl).2 (by decide)).1)⟩

/-- C5: for a detail record with no id yet, the insert path of
add_or_update_operation_detail fails when its operation type resolves to zero
reference rows, fails when it resolves to several, succeeds exactly when it
resolves to one, and in that case appends exactly one operation_details row. -/
theorem operation_detail_type_cardinality (db : DB) (d : OperationDetail)
    (hnew : d.op_detail_id = none) :
    (db.operation_types.filter (fun t => decide (t.op_name = d.op_type.toStr)) = [] →
      ∃ e, (add_or_update_operation_detail db d).2.2 = .error e) ∧
    (1 < (db.operation_types.filter (fun t => decide (t.op_name = d.op_type.toStr))).length →
      ∃ e, (add_or_update_operation_detail db d).2.2 = .error e) ∧
    ((add_or_update_operation_detail db d).2.2 = .ok () ↔
      (db.operation_types.filter (fun t => decide (t.op_name = d.op_type.toStr))).length = 1) ∧
    ((db.operation_types.filter (fun t => decide (t.op_name = d.op_type.toStr))).length = 1 →
      ∃ row, (add_or_update_operation_detail db d).1.operation_details =
        db.operation_details ++ [row]) := by
  refine ⟨?_, ?_, ?_, ?_⟩
  · intro h
    exact ⟨"More than one record found in database for operation " ++ d.op_type.toStr,
      by simp [add_or_update_operation_detail, hnew, h]⟩
  · intro h
    have hlen : (db.operation_types.filter
        (fun t => decide (t.op_name = d.op_type.toStr))).length ≠ 1 := by omega
    exact ⟨"More than one record found in database for operation " ++ d.op_type.toStr,
      by simp [add_or_update_operation_detail, hnew, hlen]⟩
  · constructor
    · intro hok
      by_contra hne
      have herr : (add_or_update_operation_detail db d).2.2 =
          .error ("More than one record found in database for operation " ++
            d.op_type.toStr) := by
        simp [add_or_update_operation_detail, hnew, hne]
      rw [herr] at hok
      exact Except.noConfusion hok
    · intro h1
      have hne : ¬ db.operation_types.filter
          (fun t => decide (t.op_name = d.op_type.toStr)) = [] := by
        intro hh
        rw [hh] at h1
        simp at h1
      simp [add_or_update_operation_detail, hnew, h1, hne, List.isEmpty_iff]
  · intro h1
    have hne : ¬ db.operation_types.filter
        (fun t => decide (t.op_name = d.op_type.toStr)) = [] := by
      intro hh
      rw [hh] at h1
      simp at h1
    exact ⟨(⟨db.next_id, d.operation_id,
        ((db.operation_types.filter (fun t => decide (t.op_name = d.op_type.toStr))).headD
          (⟨0, ""⟩ : OperationTypeRow)).type_id,
        d.status.toStr, d.tracking_id, d.start_time, d.snapshot_time, d.done_time⟩ :
          OperationDetailRow),
      by simp [add_or_update_operation_detail, hnew, h1, hne, List.isEmpty_iff]⟩

/-- C5 witness: the cardinality guard applied to an empty reference table,
where the insert fails, and to the singleton reference table, where it
succeeds. -/
theorem operation_detail_type_cardinality_witness :
    (∃ e, (add_or_update_operation_detail wEmptyDB wOpDetail).2.2 = .error e) ∧
      (add_or_update_operation_detail wTicketDB wOpDetail).2.2 = .ok () :=
  ⟨(operation_detail_type_cardinality wEmptyDB wOpDetail rfl).1 (by decide),
    (operation_detail_type_cardinality wTicketDB wOpDetail rfl).2.2.1.mpr (by decide)⟩

/-- C9: for a new operation detail whose type has no reference row, the insert
path answers with the more-than-one-record error, because the length-not-one
guard runs before the emptiness guard, and the dedicated no-record error is
unreachable for every input. -/
theorem operation_detail_unknown_type_misreport (db : DB) (d : OperationDetail) :
    (d.op_detail_id = none →
      db.operation_types.filter (fun t => decide (t.op_name = d.op_type.toStr)) = [] →
      (add_or_update_operation_detail db d).2.2 =
        .error ("More than one record found in database for operation " ++
          d.op_type.toStr)) ∧
    (add_or_update_operation_detail db d).2.2 ≠
      .error ("No record in database for operation " ++ d.op_type.toStr) := by
  constructor
  · intro hnew h
    simp [add_or_update_operation_detail, hnew, h]
  · rcases hod : d.op_detail_id with _ | id
    · by_cases hlen : (db.operation_types.filter
          (fun t => decide (t.op_name = d.op_type.toStr))).length = 1
      · have hne : ¬ db.operation_types.filter
            (fun t => decide (t.op_name = d.op_type.toStr)) = [] := by
          intro hh
          rw [hh] at hlen
          simp at hlen
        intro hcontra
        have hok : (add_or_update_operation_detail db d).2.2 = .ok () := by
          simp [add_or_update_operation_detail, hod, hlen, hne, List.isEmpty_iff]
        rw [hok] at hcontra
        exact Except.noConfusion hcontra
      · intro hcontra
        have herr : (add_or_update_operation_detail db d).2.2 =
            .error ("More than one record found in database for operation " ++
              d.op_type.toStr) := by
          simp [add_or_update_operation_detail, hod, hlen]
        rw [herr] at hcontra
        injection hcontra with heq
        have hlenstr := congrArg String.length heq
        rw [String.length_append, String.length_append] at hlenstr
        have hm : ("More than one record found in database for operation ").length = 53 := rfl
        have hn : ("No record in database for operation ").length = 36 := rfl
        omega
    · intro hcontra
      have hok : (add_or_update_operation_detail db d).2.2 = .ok () := by
        simp [add_or_update_operation_detail, hod]
      rw [hok] at hcontra
      exact Except.noConfusion hcontra

/-- C9 witness: on an empty operation_types table the insert path reports the
more-than-one-record error for the waiting_for_replacement type. -/
theorem operation_detail_unknown_type_misreport_witness :
    (add_or_update_operation_detail wEmptyDB wOpDetail).2.2 =
      .error ("More than one record found in database for operation " ++
        OperationType.WaitingForReplacement.toStr) :=
  (operation_detail_unknown_type_misreport wEmptyDB wOpDetail).1 rfl (by decide)

/-- C10: when the natural key is new and the hardware_types reference table has
no disk row, add_disk_detail still succeeds, inserting the row with the
hard-coded default hardware type id 2 rather than failing. -/
theorem add_disk_default_hardware_type (db : DB) (disk : BlockDevice)
    (hnew : hardwareNaturalKeyLookup db disk = [])
    (htype : db.hardware_types.filter (fun h => decide (h.hardware_type = "disk")) = []) :
    ∃ row, add_disk_detail db disk =
        ({ db with hardware := db.hardware ++ [row], next_id := db.next_id + 1 },
          { disk with device_database_id := some db.next_id }, .ok ()) ∧
      row.hardware_type = 2 := by
  refine ⟨(⟨db.next_id, disk.storage_detail_id, disk.dev_path, disk.device.name,
      disk.state.toStr, 2, disk.mount_point, disk.device.id,
      disk.device.serial_number, none⟩ : HardwareRow), ?_, rfl⟩
  simp [add_disk_detail, hnew, htype]

/-- C10 witness: inserting a new device into the sample database with an empty
hardware_types table. -/
theorem add_disk_default_hardware_type_witness :
    ∃ row, add_disk_detail wEmptyDB wNewDevice =
        ({ wEmptyDB with
            hardware := wEmptyDB.hardware ++ [row],
            next_id := wEmptyDB.next_id + 1 },
          { wNewDevice with device_database_id := some wEmptyDB.next_id }, .ok ()) ∧
      row.hardware_type = 2 :=
  add_disk_default_hardware_type wEmptyDB wNewDevice (by decide) (by decide)

/-- C2: update_storage_info commits the transacted state exactly when the three
resolved ids are all non-zero; any zero id makes the call fail with the
descriptive error and leaves the database unchanged, and a successful call
returns the three non-zero ids over the committed state. -/
theorem update_storage_info_commit_guard (db : DB) (s : HostInfo) (pid : Nat) :
    (∀ m, (update_storage_info db s pid).2 = .ok m →
      m.entry_id ≠ 0 ∧ m.region_id ≠ 0 ∧ m.storage_detail_id ≠ 0 ∧
      (update_storage_info db s pid).1 =
        (update_storage_details
          (update_region (register_to_process_manager db pid s.ip).1 s.region).1 s
          (update_region (register_to_process_manager db pid s.ip).1 s.region).2).1) ∧
    (∀ e, (update_storage_info db s pid).2 = .error e →
      (update_storage_info db s pid).1 = db ∧
      e = "Failed to update storage information in the database") ∧
    ((∃ e, (update_storage_info db s pid).2 = .error e) ↔
      ((register_to_process_manager db pid s.ip).2 = 0 ∨
        (update_region (register_to_process_manager db pid s.ip).1 s.region).2 = 0 ∨
        (update_storage_details
          (update_region (register_to_process_manager db pid s.ip).1 s.region).1 s
          (update_region (register_to_process_manager db pid s.ip).1 s.region).2).2 = 0)) := by
  unfold update_storage_info
  by_cases h : (register_to_process_manager db pid s.ip).2 = 0 ∨
      (update_region (register_to_process_manager db pid s.ip).1 s.region).2 = 0 ∨
      (update_storage_details
        (update_region (register_to_process_manager db pid s.ip).1 s.region).1 s
        (update_region (register_to_process_manager db pid s.ip).1 s.region).2).2 = 0
  · rw [if_pos h]
    refine ⟨?_, ?_, ?_⟩
    · intro m hm
      exact Except.noConfusion hm
    · intro e he
      injection he with he
      exact ⟨rfl, he.symm⟩
    · exact ⟨fun _ => h, fun _ => ⟨_, rfl⟩⟩
  · rw [if_neg h]
    push_neg at h
    obtain ⟨h1, h2, h3⟩ := h
    refine ⟨?_, ?_, ?_⟩
    · intro m hm
      injection hm with hm
      rw [← hm]
      exact ⟨h1, h2, h3, rfl⟩
    · intro e he
      exact Except.noConfusion he
    · constructor
      · rintro ⟨e, he⟩
        exact Except.noConfusion he
      · intro hd
        rcases hd with hd | hd | hd
        · exact absurd hd h1
        · exact absurd hd h2
        · exact absurd hd h3

/-- C2 witness: registering against the empty database, whose storage_types
table is empty, fails and leaves the database untouched. -/
theorem update_storage_info_commit_guard_witness :
    (update_storage_info wEmptyDB wHost 42).1 = wEmptyDB :=
  ((update_storage_info_commit_guard wEmptyDB wHost 42).2.1
    "Failed to update storage information in the database" (by decide)).1

/-- C6: a successful add_disk_detail is idempotent, a second call with the
resulting device returns the same device id and changes nothing, while a call
whose carried device id disagrees with the stored id fails with the mismatch
error naming the device and storage detail id and mutates nothing. -/
theorem add_disk_detail_idempotent (db : DB) (disk : BlockDevice) :
    (∀ db1 disk1, add_disk_detail db disk = (db1, disk1, .ok ()) →
      add_disk_detail db1 disk1 = (db1, disk1, .ok ())) ∧
    (∀ i row rest, disk.device_database_id = some i →
      hardwareNaturalKeyLookup db disk = row :: rest → i ≠ row.device_id →
      add_disk_detail db disk = (db, disk,
        .error ("Information about " ++ disk.device.name ++ " for storage id " ++
          toString disk.storage_detail_id ++ " didn\x27t match"))) := by
  constructor
  · intro db1 disk1 hcall
    rcases hL : hardwareNaturalKeyLookup db disk with _ | ⟨row, rest⟩
    · have hLf := hL
      simp only [hardwareNaturalKeyLookup, Bool.decide_and] at hLf
      simp only [add_disk_detail, hL] at hcall
      injection hcall with h1 h23
      injection h23 with h2 h3
      subst h1
      subst h2
      simp [add_disk_detail, hardwareNaturalKeyLookup, List.filter_append, hLf]
    · rcases hdd : disk.device_database_id with _ | i
      · have hLf := hL
        simp only [hardwareNaturalKeyLookup, Bool.decide_and] at hLf
        simp only [add_disk_detail, hL, hdd] at hcall
        injection hcall with h1 h23
        injection h23 with h2 h3
        subst h1
        subst h2
        simp [add_disk_detail, hardwareNaturalKeyLookup, hLf]
      · by_cases hie : i = row.device_id
        · simp only [add_disk_detail, hL, hdd] at hcall
          rw [if_pos hie] at hcall
          injection hcall with h1 h23
          injection h23 with h2 h3
          subst h1
          subst h2
          simp [add_disk_detail, hL, hdd, hie]
        · simp only [add_disk_detail, hL, hdd] at hcall
          rw [if_neg hie] at hcall
          injection hcall with h1 h23
          injection h23 with h2 h3
          exact Except.noConfusion h3
  · intro i row rest hi hL hne
    simp only [add_disk_detail, hL, hi]
    rw [if_neg hne]

/-- C6 witness: re-adding the freshly inserted sample device is a no-op with
the same id, and a deliberately wrong carried id fails with the mismatch
error. -/
theorem add_disk_detail_idempotent_witness :
    add_disk_detail wInsertedDB wInsertedDisk = (wInsertedDB, wInsertedDisk, .ok ()) ∧
      add_disk_detail wDeviceDB { wDevice with device_database_id := some 4 } =
        (wDeviceDB, { wDevice with device_database_id := some 4 },
          .error ("Information about " ++ "sdb" ++ " for storage id " ++
            toString (5 : Nat) ++ " didn\x27t match")) :=
  ⟨(add_disk_detail_idempotent wEmptyDB wNewDevice).1 wInsertedDB wInsertedDisk (by decide),
    (add_disk_detail_idempotent wDeviceDB { wDevice with device_database_id := some 4 }).2
      4 wHardwareRow [] rfl (by decide) (by decide)⟩

/-- Membership in the three-way ticket join is membership in the three tables
together with the two join-key equations. -/
theorem mem_ticketJoin (db : DB) (r : JoinedTicketRow) :
    r ∈ ticketJoin db ↔
      r.od ∈ db.operation_details ∧ r.op ∈ db.operations ∧ r.hw ∈ db.hardware ∧
      r.op.operation_id = r.od.operation_id ∧ r.hw.device_id = r.op.device_id := by
  unfold ticketJoin
  simp only [List.mem_flatMap, List.mem_map, List.mem_filter, decide_eq_true_eq]
  constructor
  · rintro ⟨od, hod, op, ⟨hop, hope⟩, hw, ⟨hhw, hhwe⟩, hmk⟩
    subst hmk
    exact ⟨hod, hop, hhw, hope, hhwe⟩
  · rintro ⟨hod, hop, hhw, hope, hhwe⟩
    exact ⟨r.od, hod, r.op, ⟨hop, hope⟩, r.hw, ⟨hhw, hhwe⟩, rfl⟩

/-- The boolean WHERE clause agrees with its propositional reading. -/
theorem ticketWhere_eq_true (t : Nat) (detail : Option Nat) (r : JoinedTicketRow) :
    ticketWhere t detail r = true ↔
      ((r.od.status = OperationStatus.Pending.toStr ∨
        r.od.status = OperationStatus.InProgress.toStr) ∧
      r.od.type_id = t ∧
      (r.hw.state = State.WaitingForReplacement.toStr ∨ r.hw.state = State.Good.toStr) ∧
      (∀ d, detail = some d → r.hw.detail_id = d) ∧
      r.od.tracking_id ≠ none) := by
  cases detail <;>
    simp [ticketWhere, Bool.and_eq_true, Bool.or_eq_true, decide_eq_true_eq,
      Option.isSome_iff_ne_none] <;>
    tauto

/-- Transitivity of the start-time comparison. -/
theorem ticketRowLe_trans (a b c : JoinedTicketRow) :
    ticketRowLe a b = true → ticketRowLe b c = true → ticketRowLe a c = true := by
  simp only [ticketRowLe, decide_eq_true_eq]
  omega

/-- Totality of the start-time comparison. -/
theorem ticketRowLe_total (a b : JoinedTicketRow) :
    (ticketRowLe a b || ticketRowLe b a) = true := by
  simp only [ticketRowLe, Bool.or_eq_true, decide_eq_true_eq]
  omega

/-- Under a uniquely resolved waiting_for_replacement reference row, the shared
ticket query succeeds with rows characterized by the open-ticket predicate and
ordered by operation start time. -/
theorem ticketQueryRows_characterized (db : DB) (detail : Option Nat)
    (twfr : OperationTypeRow)
    (h : db.operation_types.filter
      (fun t => decide (t.op_name = OperationType.WaitingForReplacement.toStr)) = [twfr]) :
    ∃ rows, ticketQueryRows db detail = .ok rows ∧
      TicketRowsCharacterized db twfr.type_id detail rows := by
  refine ⟨((ticketJoin db).filter
      (fun r => ticketWhere twfr.type_id detail r)).mergeSort ticketRowLe, ?_, ?_, ?_⟩
  · unfold ticketQueryRows scalarTypeIdSubquery
    rw [h]
    rfl
  · intro r
    rw [(List.mergeSort_perm _ _).mem_iff, List.mem_filter]
    unfold IsOpenTicketRow
    rw [mem_ticketJoin, ticketWhere_eq_true]
    tauto
  · exact (List.sorted_mergeSort ticketRowLe_trans ticketRowLe_total _).imp
      (fun hab => by simpa [ticketRowLe] using hab)

/-- C7: given the waiting_for_replacement reference row, the per-host query
answers with exactly the open ticket rows of its storage detail id and the
fleet-wide query with exactly all open ticket rows, both ordered by operation
start time ascending and projected to the repair ticket records. -/
theorem ticket_queries_spec (db : DB) (detail_id : Nat) (twfr : OperationTypeRow)
    (h : db.operation_types.filter
      (fun t => decide (t.op_name = OperationType.WaitingForReplacement.toStr)) = [twfr]) :
    OutstandingQueryCorrect db twfr.type_id detail_id ∧
      AllPendingQueryCorrect db twfr.type_id := by
  obtain ⟨rows1, h1, hc1⟩ := ticketQueryRows_characterized db (some detail_id) twfr h
  obtain ⟨rows2, h2, hc2⟩ := ticketQueryRows_characterized db none twfr h
  constructor
  · refine ⟨rows1, h1, ?_, hc1⟩
    unfold get_outstanding_repair_tickets
    rw [h1]
    rfl
  · refine ⟨rows2, h2, ?_, hc2⟩
    unfold get_all_pending_tickets
    rw [h2]
    rfl

/-- C7 witness: the ticket queries applied to the sample database, whose single
joined row is an open waiting_for_replacement ticket. -/
theorem ticket_queries_spec_witness :
    wTicketDB.operation_types.filter
        (fun t => decide (t.op_name = OperationType.WaitingForReplacement.toStr)) =
          [wTypeRow] ∧
      OutstandingQueryCorrect wTicketDB wTypeRow.type_id 5 ∧
      AllPendingQueryCorrect wTicketDB wTypeRow.type_id :=
  ⟨by decide, (ticket_queries_spec wTicketDB 5 wTypeRow (by decide)).1,
    (ticket_queries_spec wTicketDB 5 wTypeRow (by decide)).2⟩

end Bynar
